import Mathlib

/-!
Verification of the fydblock-gridbot core: a shallow embedding of the
grid state machine (core/grid_management/grid_manager.py), the persistent
order ledger (core/storage/bot_database.py) and the strategy control loop
(strategies/grid_trading_strategy.py), with theorems settling the spec's
claims about them.

Prices and balances are modelled as exact rationals (the Python code uses
floats; the properties at stake are comparisons and exact arithmetic).
The grid-construction routine, which takes a real-valued power, is
modelled over the reals.
-/

/-- Strategy types (strategies/strategy_type.py). -/
inductive StrategyType
  | SIMPLE_GRID
  | HEDGED_GRID
deriving DecidableEq, Repr

/-- Spacing types (strategies/spacing_type.py). -/
inductive SpacingType
  | ARITHMETIC
  | GEOMETRIC
deriving DecidableEq, Repr

/-- Grid level lifecycle states (core/grid_management/grid_level.py,
the passive record read and written by GridManager). -/
inductive GridCycleState
  | READY_TO_BUY
  | READY_TO_SELL
  | READY_TO_BUY_OR_SELL
  | WAITING_FOR_BUY_FILL
  | WAITING_FOR_SELL_FILL
deriving DecidableEq, Repr

/-- Order sides (core/order_handling/order.py). -/
inductive OrderSide
  | BUY
  | SELL
deriving DecidableEq, Repr

/-- A grid level: rung price, lifecycle state, and the paired
back-references. The Python pairs are object references; since
`GridManager.grid_levels` is a dict keyed by price and every level lives
in that dict, a paired level is identified here by its price. -/
structure GridLevel where
  price : ℚ
  state : GridCycleState
  paired_buy_level : Option ℚ
  paired_sell_level : Option ℚ
deriving DecidableEq, Repr

/-- The GridManager state (core/grid_management/grid_manager.py).
The Python dict `grid_levels : price -> GridLevel` is modelled as a list
of levels in insertion order, looked up by price. -/
structure GridManager where
  strategy_type : StrategyType
  price_grids : List ℚ
  central_price : ℚ
  sorted_buy_grids : List ℚ
  sorted_sell_grids : List ℚ
  grid_levels : List GridLevel
deriving DecidableEq, Repr

/-- Dict lookup `self.grid_levels[price]` (first level with that price). -/
def findLevel (levels : List GridLevel) (p : ℚ) : Option GridLevel :=
  levels.find? (fun gl => decide (gl.price = p))

/-- Mutation `self.grid_levels[price].state = s` (updates the level with
that price in place). -/
def updateLevelState (levels : List GridLevel) (p : ℚ) (s : GridCycleState) :
    List GridLevel :=
  levels.map (fun gl => if gl.price = p then { gl with state := s } else gl)

/-- State of the level at price `p`, if present. -/
def stateAtL (levels : List GridLevel) (p : ℚ) : Option GridCycleState :=
  (findLevel levels p).map GridLevel.state

/-- State of the manager's level at price `p`, if present. -/
def stateAt (m : GridManager) (p : ℚ) : Option GridCycleState :=
  stateAtL m.grid_levels p

/-- Loop body of `update_zones_based_on_price`: for one rung price,
look the level up (`KeyError` modelled as `none`) and overwrite its state
with the ideal state only when it is idle. -/
def zonesStep (current_price : ℚ) (levels : List GridLevel) (price : ℚ) :
    Option (List GridLevel) :=
  match findLevel levels price with
  | none => none
  | some gl =>
    if gl.state = GridCycleState.READY_TO_BUY ∨ gl.state = GridCycleState.READY_TO_SELL then
      some (updateLevelState levels price
        (if price < current_price then GridCycleState.READY_TO_BUY
         else GridCycleState.READY_TO_SELL))
    else
      some levels

/-- `GridManager.update_zones_based_on_price` (grid_manager.py, lines 60-93).
Not SIMPLE_GRID: early return. Otherwise rebuild the buy/sell partitions
by comparison with `current_price` and re-idealise every idle level.
`none` models an uncaught `KeyError` on an ill-formed manager. -/
def update_zones_based_on_price (m : GridManager) (current_price : ℚ) :
    Option GridManager :=
  if m.strategy_type ≠ StrategyType.SIMPLE_GRID then
    some m
  else
    match m.price_grids.foldlM (zonesStep current_price) m.grid_levels with
    | none => none
    | some levels =>
      some { m with
        sorted_buy_grids := m.price_grids.filter (fun q => decide (q < current_price)),
        sorted_sell_grids := m.price_grids.filter (fun q => decide (¬ q < current_price)),
        grid_levels := levels }

/-- `GridManager.get_paired_sell_level` (grid_manager.py, lines 153-175):
the next rung above the level's price in the sorted grid, or `None`.
Outer `none` models an uncaught exception (`KeyError` on the dict lookup;
in the HEDGED_GRID branch also the uncaught `ValueError` of `list.index`). -/
def get_paired_sell_level (m : GridManager) (gl : GridLevel) :
    Option (Option GridLevel) :=
  match m.strategy_type with
  | StrategyType.SIMPLE_GRID =>
    let sorted_prices := m.price_grids.insertionSort (· ≤ ·)
    match sorted_prices.findIdx? (fun q => decide (q = gl.price)) with
    | none => some none
    | some idx =>
      if idx + 1 < sorted_prices.length then
        match findLevel m.grid_levels (sorted_prices.getD (idx + 1) 0) with
        | some l => some (some l)
        | none => none
      else
        some none
  | StrategyType.HEDGED_GRID =>
    let sorted_prices := m.price_grids.insertionSort (· ≤ ·)
    match sorted_prices.findIdx? (fun q => decide (q = gl.price)) with
    | none => none
    | some idx =>
      if idx + 1 < sorted_prices.length then
        match findLevel m.grid_levels (sorted_prices.getD (idx + 1) 0) with
        | some l => some (some l)
        | none => none
      else
        some none

/-- `GridManager.complete_order` (grid_manager.py, lines 198-245).
The Python method mutates the passed level object and its paired levels;
here the level is given by value and the mutations are performed on the
manager's level list, keyed by price. Note that in the SIMPLE_GRID SELL
branch the `paired_buy_level` update sits outside the if/else guard and
therefore runs even when the level is WAITING_FOR_BUY_FILL. -/
def complete_order (m : GridManager) (gl : GridLevel) (order_side : OrderSide) :
    GridManager :=
  match m.strategy_type, order_side with
  | StrategyType.SIMPLE_GRID, OrderSide.BUY =>
    let levels := updateLevelState m.grid_levels gl.price GridCycleState.READY_TO_SELL
    let levels :=
      match gl.paired_sell_level with
      | some q => updateLevelState levels q GridCycleState.READY_TO_SELL
      | none => levels
    { m with grid_levels := levels }
  | StrategyType.SIMPLE_GRID, OrderSide.SELL =>
    let levels :=
      if gl.state = GridCycleState.WAITING_FOR_BUY_FILL then
        m.grid_levels
      else
        updateLevelState m.grid_levels gl.price GridCycleState.READY_TO_BUY
    let levels :=
      match gl.paired_buy_level with
      | some q => updateLevelState levels q GridCycleState.READY_TO_BUY
      | none => levels
    { m with grid_levels := levels }
  | StrategyType.HEDGED_GRID, OrderSide.BUY =>
    let levels := updateLevelState m.grid_levels gl.price GridCycleState.READY_TO_BUY_OR_SELL
    let levels :=
      match gl.paired_sell_level with
      | some q => updateLevelState levels q GridCycleState.READY_TO_SELL
      | none => levels
    { m with grid_levels := levels }
  | StrategyType.HEDGED_GRID, OrderSide.SELL =>
    let levels := updateLevelState m.grid_levels gl.price GridCycleState.READY_TO_BUY_OR_SELL
    let levels :=
      match gl.paired_buy_level with
      | some q => updateLevelState levels q GridCycleState.READY_TO_BUY
      | none => levels
    { m with grid_levels := levels }

/-- `GridManager.can_place_order` (grid_manager.py, lines 247-276).
`none` models the uncaught exception that `get_paired_sell_level` can
raise on an ill-formed manager. -/
def can_place_order (m : GridManager) (gl : GridLevel) (order_side : OrderSide) :
    Option Bool :=
  match m.strategy_type, order_side with
  | StrategyType.SIMPLE_GRID, OrderSide.BUY =>
    if gl.state ≠ GridCycleState.READY_TO_BUY then
      some false
    else
      match get_paired_sell_level m gl with
      | none => none
      | some (some ps) =>
        if ps.state = GridCycleState.WAITING_FOR_SELL_FILL then some false
        else some true
      | some none => some true
  | StrategyType.SIMPLE_GRID, OrderSide.SELL =>
    some (decide (gl.state = GridCycleState.READY_TO_SELL))
  | StrategyType.HEDGED_GRID, OrderSide.BUY =>
    some (decide (gl.state = GridCycleState.READY_TO_BUY ∨
      gl.state = GridCycleState.READY_TO_BUY_OR_SELL))
  | StrategyType.HEDGED_GRID, OrderSide.SELL =>
    some (decide (gl.state = GridCycleState.READY_TO_SELL ∨
      gl.state = GridCycleState.READY_TO_BUY_OR_SELL))

/-- `GridManager.get_order_size_for_grid_level` (grid_manager.py, lines
98-107): guard only the zero-grid case; a zero `current_price` reaches
the division and raises `ZeroDivisionError`, modelled as `none`. -/
def get_order_size_for_grid_level (m : GridManager) (total_balance current_price : ℚ) :
    Option ℚ :=
  if m.grid_levels.length = 0 then
    some 0
  else if current_price = 0 then
    none
  else
    some (total_balance / (m.grid_levels.length : ℚ) / current_price)

/-- Dict sanity of a manager: the level list is keyed exactly by
`price_grids` (a Python dict built over `price_grids` with unique keys). -/
def WellFormedGrid (m : GridManager) : Prop :=
  m.grid_levels.map GridLevel.price = m.price_grids ∧ m.price_grids.Nodup

instance (m : GridManager) : Decidable (WellFormedGrid m) := by
  unfold WellFormedGrid; infer_instance

/-- A row of the `grid_orders` table (core/storage/bot_database.py).
The schema has no UNIQUE constraint (only an index on
`(bot_id, price, status)`), so rows are a plain list in rowid order. -/
structure LedgerRow where
  bot_id : ℤ
  order_id : String
  price : ℚ
  side : String
  quantity : ℚ
  status : String
deriving DecidableEq, Repr

/-- `BotDatabase.add_order` (bot_database.py, lines 37-54): a plain
INSERT of a new row with status OPEN; no duplicate check of any kind. -/
def add_order (db : List LedgerRow) (bot_id : ℤ) (order_id : String)
    (price : ℚ) (side : String) (quantity : ℚ) : List LedgerRow :=
  db ++ [{ bot_id := bot_id, order_id := order_id, price := price,
           side := side, quantity := quantity, status := "OPEN" }]

/-- `BotDatabase.update_order_status` (bot_database.py, lines 56-69). -/
def update_order_status (db : List LedgerRow) (order_id new_status : String) :
    List LedgerRow :=
  db.map (fun r => if r.order_id = order_id then { r with status := new_status } else r)

/-- `BotDatabase.clear_all_orders` (bot_database.py, lines 104-115):
deletes every row of the bot. -/
def clear_all_orders (db : List LedgerRow) (bot_id : ℤ) : List LedgerRow :=
  db.filter (fun r => decide (¬ r.bot_id = bot_id))

/-- The bot's OPEN rows, in rowid order (the SQL
`SELECT ... WHERE bot_id = ? AND status = "OPEN"`). -/
def openRowsOf (db : List LedgerRow) (bot_id : ℤ) : List LedgerRow :=
  db.filter (fun r => decide (r.bot_id = bot_id ∧ r.status = "OPEN"))

/-- `BotDatabase.get_active_order_at_price` (bot_database.py, lines
71-89): fetch the bot's OPEN rows, then return the first whose stored
price is within `tolerance` of the query price, else `None`. -/
def get_active_order_at_price (db : List LedgerRow) (bot_id : ℤ)
    (price tolerance : ℚ) : Option LedgerRow :=
  (openRowsOf db bot_id).find? (fun r => decide (|r.price - price| < tolerance))

/-- OPEN rows of a bot whose price is within `tol` of the rung `r`. -/
def open_rows_near (db : List LedgerRow) (bot_id : ℤ) (r tol : ℚ) : List LedgerRow :=
  db.filter (fun row => decide (row.bot_id = bot_id ∧ row.status = "OPEN" ∧
    |row.price - r| < tol))

/-- Externally observable steps of one call to the live/paper ticker
handler (grid_trading_strategy.py). -/
inductive StrategyAction
  | record_metrics (price : ℚ)
  | cancel_all_open_orders
  | update_zones (price : ℚ)
  | perform_initial_purchase (price : ℚ)
  | initialize_grid_orders (price : ℚ)
  | evaluate_tp_sl (price : ℚ)
  | publish_stop_bot
deriving DecidableEq, Repr

/-- Outcome of the side-effecting calls a tick can make: whether the
pre-start cancellation, the initial purchase and the grid placement
raise, and whether `_handle_take_profit_stop_loss` reports a trigger. -/
structure TickOutcome where
  cancel_ok : Bool
  purchase_ok : Bool
  place_ok : Bool
  tpsl_triggered : Bool
deriving DecidableEq, Repr

/-- Per-bot loop state of `_run_live_or_paper_trading`: `self._running`,
the `grid_orders_initialized` flag and `last_price`. -/
structure TickState where
  running : Bool
  grid_orders_initialized : Bool
  last_price : Option ℚ
deriving DecidableEq, Repr

/-- `GridTradingStrategy._initialize_grid_orders_once`
(grid_trading_strategy.py, lines 198-229). Returns
(initialized flag returned, whether `_running` stays true, actions).
A failing `cancel_all_open_orders` is caught and only logged; a failing
`perform_initial_purchase` skips the placement; a failure of either
purchase or placement sets `_running = False` and returns False. -/
def initialize_grid_orders_once (grid_orders_initialized : Bool)
    (current_price : ℚ) (o : TickOutcome) : Bool × Bool × List StrategyAction :=
  if grid_orders_initialized then
    (true, true, [])
  else
    let acts := [StrategyAction.cancel_all_open_orders,
                 StrategyAction.update_zones current_price,
                 StrategyAction.perform_initial_purchase current_price]
    if o.purchase_ok then
      if o.place_ok then
        (true, true, acts ++ [StrategyAction.initialize_grid_orders current_price])
      else
        (false, false, acts ++ [StrategyAction.initialize_grid_orders current_price])
    else
      (false, false, acts)

/-- The ticker handler `on_ticker_update` of
`GridTradingStrategy._run_live_or_paper_trading`
(grid_trading_strategy.py, lines 158-185): bail out when stopped, record
metrics, run the once-only initialization gate, and - whenever the gate
reports initialized - evaluate take-profit/stop-loss on the same tick,
publishing STOP_BOT and skipping the `last_price` update on a trigger. -/
def on_ticker_update (st : TickState) (current_price : ℚ) (o : TickOutcome) :
    TickState × List StrategyAction :=
  if st.running = false then
    (st, [])
  else
    let metrics := [StrategyAction.record_metrics current_price]
    let gate := initialize_grid_orders_once st.grid_orders_initialized current_price o
    let running' := st.running && gate.2.1
    if gate.1 = false then
      ({ running := running', grid_orders_initialized := false,
         last_price := some current_price }, metrics ++ gate.2.2)
    else
      let acts := metrics ++ gate.2.2 ++ [StrategyAction.evaluate_tp_sl current_price]
      if o.tpsl_triggered then
        ({ running := running', grid_orders_initialized := true,
           last_price := st.last_price }, acts ++ [StrategyAction.publish_stop_bot])
      else
        ({ running := running', grid_orders_initialized := true,
           last_price := some current_price }, acts)

/-- Result of the startup section of `_run_live_or_paper_trading`
(grid_trading_strategy.py, lines 103-152): whether the bot is still
running, whether `listen_to_ticker_updates` is reached (the ticker
handler installed), and the balances handed to `setup_balances`. -/
structure StartupResult where
  running : Bool
  ticker_handler_installed : Bool
  effective_fiat : Option ℚ
  effective_crypto : Option ℚ
deriving DecidableEq, Repr

/-- Startup of `_run_live_or_paper_trading`: fetch wallet balances
(`balance_ok` models a failing `get_balance`, caught by the surrounding
try), fail with INSUFFICIENT FUNDS when the wallet's free fiat is below
the configured investment, otherwise cap the bot's effective fiat at
exactly the investment amount and install the ticker handler
(`setup_ok` models a failing `setup_balances`, also caught). -/
def run_live_or_paper_startup (balance_ok : Bool)
    (wallet_crypto wallet_fiat investment : ℚ) (setup_ok : Bool) : StartupResult :=
  if balance_ok = false then
    { running := false, ticker_handler_installed := false,
      effective_fiat := none, effective_crypto := none }
  else if wallet_fiat < investment then
    { running := false, ticker_handler_installed := false,
      effective_fiat := none, effective_crypto := none }
  else if setup_ok then
    { running := true, ticker_handler_installed := true,
      effective_fiat := some investment, effective_crypto := some wallet_crypto }
  else
    { running := false, ticker_handler_installed := false,
      effective_fiat := some investment, effective_crypto := some wallet_crypto }

/-- Orders the TP/SL path can send, and the stop event it can publish. -/
inductive TpslAction
  | execute_take_profit_order (price : ℚ)
  | execute_stop_loss_order (price : ℚ)
  | publish_stop_bot
deriving DecidableEq, Repr

/-- The four risk-management configuration reads used by the TP/SL path. -/
structure TpslConfig where
  take_profit_enabled : Bool
  take_profit_threshold : ℚ
  stop_loss_enabled : Bool
  stop_loss_threshold : ℚ
deriving DecidableEq, Repr

/-- `GridTradingStrategy._handle_take_profit`
(grid_trading_strategy.py, lines 279-284). -/
def handle_take_profit (c : TpslConfig) (current_price : ℚ) : Bool × List TpslAction :=
  if c.take_profit_enabled = true ∧ current_price ≥ c.take_profit_threshold then
    (true, [TpslAction.execute_take_profit_order current_price])
  else
    (false, [])

/-- `GridTradingStrategy._handle_stop_loss`
(grid_trading_strategy.py, lines 286-291). -/
def handle_stop_loss (c : TpslConfig) (current_price : ℚ) : Bool × List TpslAction :=
  if c.stop_loss_enabled = true ∧ current_price ≤ c.stop_loss_threshold then
    (true, [TpslAction.execute_stop_loss_order current_price])
  else
    (false, [])

/-- `GridTradingStrategy._evaluate_tp_or_sl` (grid_trading_strategy.py,
lines 275-277): bail out with False when the tracked crypto balance is
zero; otherwise short-circuit `or` of take-profit then stop-loss. -/
def evaluate_tp_or_sl (crypto_balance : ℚ) (c : TpslConfig) (current_price : ℚ) :
    Bool × List TpslAction :=
  if crypto_balance = 0 then
    (false, [])
  else
    let tp := handle_take_profit c current_price
    if tp.1 then tp else handle_stop_loss c current_price

/-- `GridTradingStrategy._handle_take_profit_stop_loss`
(grid_trading_strategy.py, lines 268-273): on a trigger publish STOP_BOT
and report True. -/
def handle_take_profit_stop_loss (crypto_balance : ℚ) (c : TpslConfig)
    (current_price : ℚ) : Bool × List TpslAction :=
  let e := evaluate_tp_or_sl crypto_balance c current_price
  if e.1 then (true, e.2 ++ [TpslAction.publish_stop_bot]) else (false, e.2)

/-- `np.linspace(b, t, num)` over the reals: `num` evenly spaced points
from `b` to `t` inclusive. -/
noncomputable def linspace (b t : ℝ) (num : ℕ) : List ℝ :=
  if num = 0 then []
  else if num = 1 then [b]
  else (List.range num).map (fun (i : ℕ) => b + (i : ℝ) * ((t - b) / ((num : ℝ) - 1)))

/-- `GridManager._calculate_price_grids_and_central_price`
(grid_manager.py, lines 285-317), over the reals. An even requested
count is bumped to `num_grids + 1` generated points. ARITHMETIC uses
`linspace` with central price `(top + bottom) / 2`; GEOMETRIC multiplies
up from the bottom by `(top/bottom)^(1/(n-1))` and takes the middle
element as central price. -/
noncomputable def calculate_price_grids_and_central_price
    (bottom_range top_range : ℝ) (num_grids : ℕ) (spacing_type : SpacingType) :
    List ℝ × ℝ :=
  let points_to_generate := if num_grids % 2 = 0 then num_grids + 1 else num_grids
  match spacing_type with
  | SpacingType.ARITHMETIC =>
    (linspace bottom_range top_range points_to_generate,
     (top_range + bottom_range) / 2)
  | SpacingType.GEOMETRIC =>
    if points_to_generate ≤ 1 then
      ([bottom_range], bottom_range)
    else
      let ratio := Real.rpow (top_range / bottom_range)
        (1 / ((points_to_generate : ℝ) - 1))
      let grids := (List.range points_to_generate).map
        (fun (i : ℕ) => bottom_range * ratio ^ i)
      (grids, grids.getD (grids.length / 2) 0)

/-- A one-level SIMPLE_GRID manager used as a concrete input for the
order-sizing claims. -/
def sizingManager : GridManager :=
  { strategy_type := StrategyType.SIMPLE_GRID,
    price_grids := [100],
    central_price := 100,
    sorted_buy_grids := [100],
    sorted_sell_grids := [],
    grid_levels := [{ price := 100, state := GridCycleState.READY_TO_BUY,
                      paired_buy_level := none, paired_sell_level := none }] }

/-- The concrete ledger row of the spec's scenario S7: an OPEN order of
bot 7 at price 100.0001. -/
def s7Row : LedgerRow :=
  { bot_id := 7, order_id := "a", price := 1000001 / 10000, side := "BUY",
    quantity := 1, status := "OPEN" }

/-- A two-rung SIMPLE_GRID manager for the C2 counterexample: rung 100
is WAITING_FOR_BUY_FILL (claimed by its neighbour) and has rung 95 as
its paired buy level; rung 95 is READY_TO_SELL. -/
def c2Manager : GridManager :=
  { strategy_type := StrategyType.SIMPLE_GRID,
    price_grids := [95, 100],
    central_price := 100,
    sorted_buy_grids := [95],
    sorted_sell_grids := [100],
    grid_levels :=
      [{ price := 95, state := GridCycleState.READY_TO_SELL,
         paired_buy_level := none, paired_sell_level := some 100 },
       { price := 100, state := GridCycleState.WAITING_FOR_BUY_FILL,
         paired_buy_level := some 95, paired_sell_level := none }] }

/-- The rung-100 level of `c2Manager`, as passed to `complete_order`. -/
def c2Level : GridLevel :=
  { price := 100, state := GridCycleState.WAITING_FOR_BUY_FILL,
    paired_buy_level := some 95, paired_sell_level := none }

/-- The two-rung SIMPLE_GRID manager of scenario S5: rung 95 is
READY_TO_BUY and rung 100 (the rung above) is WAITING_FOR_SELL_FILL. -/
def s5Manager : GridManager :=
  { strategy_type := StrategyType.SIMPLE_GRID,
    price_grids := [95, 100],
    central_price := 100,
    sorted_buy_grids := [95],
    sorted_sell_grids := [100],
    grid_levels :=
      [{ price := 95, state := GridCycleState.READY_TO_BUY,
         paired_buy_level := none, paired_sell_level := none },
       { price := 100, state := GridCycleState.WAITING_FOR_SELL_FILL,
         paired_buy_level := none, paired_sell_level := none }] }

/-- The rung-95 level of `s5Manager`. -/
def s5Level : GridLevel :=
  { price := 95, state := GridCycleState.READY_TO_BUY,
    paired_buy_level := none, paired_sell_level := none }

/-- A five-rung SIMPLE_GRID manager in the spirit of scenario S3
(rungs 90..110, centre 100), with rung 105 busy waiting for a sell
fill. -/
def zonesManager : GridManager :=
  { strategy_type := StrategyType.SIMPLE_GRID,
    price_grids := [90, 95, 100, 105, 110],
    central_price := 100,
    sorted_buy_grids := [90, 95, 100],
    sorted_sell_grids := [105, 110],
    grid_levels :=
      [{ price := 90, state := GridCycleState.READY_TO_BUY,
         paired_buy_level := none, paired_sell_level := none },
       { price := 95, state := GridCycleState.READY_TO_BUY,
         paired_buy_level := none, paired_sell_level := none },
       { price := 100, state := GridCycleState.READY_TO_BUY,
         paired_buy_level := none, paired_sell_level := none },
       { price := 105, state := GridCycleState.WAITING_FOR_SELL_FILL,
         paired_buy_level := none, paired_sell_level := none },
       { price := 110, state := GridCycleState.READY_TO_SELL,
         paired_buy_level := none, paired_sell_level := none }] }

/-- Claim C10: whenever the tracked crypto balance is 0, the TP/SL
evaluation returns false without consulting thresholds, so no
take-profit or stop-loss order is executed and no STOP_BOT event is
published on that tick, whatever the configured thresholds and the
current price. -/
theorem c10_tp_sl_skipped_on_zero_crypto (c : TpslConfig) (p : ℚ) :
    evaluate_tp_or_sl 0 c p = (false, []) ∧
    handle_take_profit_stop_loss 0 c p = (false, []) := by
  constructor
  · simp [evaluate_tp_or_sl]
  · simp [handle_take_profit_stop_loss, evaluate_tp_or_sl]

/-- Claim C8: at live/paper startup, a wallet free fiat strictly below
the configured investment fails with insufficient funds and the ticker
handler is never installed; otherwise the fiat handed to the balance
tracker is exactly the investment amount (the surplus is ignored), and
the handler is installed exactly when `setup_balances` succeeds. -/
theorem c8_startup_funds_gate (wc wf inv : ℚ) (setup_ok : Bool) :
    (wf < inv →
      run_live_or_paper_startup true wc wf inv setup_ok =
        { running := false, ticker_handler_installed := false,
          effective_fiat := none, effective_crypto := none }) ∧
    (¬ wf < inv →
      (run_live_or_paper_startup true wc wf inv setup_ok).effective_fiat = some inv ∧
      (run_live_or_paper_startup true wc wf inv setup_ok).ticker_handler_installed =
        setup_ok) := by
  constructor
  · intro h
    simp [run_live_or_paper_startup, h]
  · intro h
    cases setup_ok <;> simp [run_live_or_paper_startup, h]

/-- Witness for C8 at the spec's scenario S6: investment 1000, wallet
free fiat 800. -/
theorem c8_startup_funds_gate_witness :
    run_live_or_paper_startup true 0 800 1000 true =
      { running := false, ticker_handler_installed := false,
        effective_fiat := none, effective_crypto := none } :=
  (c8_startup_funds_gate 0 800 1000 true).1 (by norm_num)

/-- Claim C4 (code bug): the ledger does not prevent a second OPEN order
at the same price for the same bot. Starting from an empty table, two
`add_order` calls for bot 1 at price 100 both insert, leaving two OPEN
rows within tolerance 0.001 of the rung 100 - despite the comment in
`_init_db` claiming a UNIQUE constraint on (bot_id, price, status). -/
theorem c4_duplicate_open_rows :
    (open_rows_near
      (add_order (add_order [] 1 "a" 100 "BUY" 1) 1 "b" 100 "BUY" 1)
      1 100 (1 / 1000)).length = 2 := by
  simp [open_rows_near, add_order]

/-- Counterexample to claim C9 as stated: with a non-empty grid and
`current_price = 0` the code reaches `total_balance / total_grids /
current_price` and raises `ZeroDivisionError` (modelled `none`) instead
of returning 0. -/
theorem c9_counterexample_price_zero :
    get_order_size_for_grid_level sizingManager 100 0 = none ∧
    get_order_size_for_grid_level sizingManager 100 0 ≠ some 0 := by
  decide

/-- Claim C9, amended: `get_order_size_for_grid_level` returns 0 when
there are zero grid levels (the only guarded case); with a non-empty
grid it returns `total_balance / count / price` for a nonzero price and
fails with `ZeroDivisionError` for price 0. -/
theorem c9_order_size (m : GridManager) (tb p : ℚ) :
    (m.grid_levels.length = 0 → get_order_size_for_grid_level m tb p = some 0) ∧
    (m.grid_levels.length ≠ 0 → p ≠ 0 →
      get_order_size_for_grid_level m tb p =
        some (tb / (m.grid_levels.length : ℚ) / p)) ∧
    (m.grid_levels.length ≠ 0 → p = 0 →
      get_order_size_for_grid_level m tb p = none) := by
  refine ⟨fun h => ?_, fun h hp => ?_, fun h hp => ?_⟩
  · simp [get_order_size_for_grid_level, h]
  · simp [get_order_size_for_grid_level, h, hp]
  · simp [get_order_size_for_grid_level, h, hp]

/-- Witness for C9 (amended) on the one-level manager with balance 10
and price 2: the order size is 10 / 1 / 2 = 5. -/
theorem c9_order_size_witness :
    get_order_size_for_grid_level sizingManager 10 2 = some 5 := by
  have h := (c9_order_size sizingManager 10 2).2.1 (by decide) (by decide)
  rw [h]
  norm_num [sizingManager]

/-- Counterexample to claim C6 as stated: first tick (running, not yet
initialized) at price 50, where the pre-start cancellation fails but the
initial purchase and grid placement succeed. The claim predicts that the
gate failure sets running to false and stops, and that a successful
initialization performs no further work that tick; the code instead
swallows the cancellation failure, keeps running, marks initialized,
and goes on to evaluate take-profit/stop-loss on the very same tick. -/
theorem c6_counterexample_same_tick_tpsl :
    (on_ticker_update
        { running := true, grid_orders_initialized := false, last_price := none }
        50
        { cancel_ok := false, purchase_ok := true, place_ok := true,
          tpsl_triggered := true }).1.running = true ∧
    (on_ticker_update
        { running := true, grid_orders_initialized := false, last_price := none }
        50
        { cancel_ok := false, purchase_ok := true, place_ok := true,
          tpsl_triggered := true }).1.grid_orders_initialized = true ∧
    StrategyAction.evaluate_tp_sl 50 ∈
      (on_ticker_update
        { running := true, grid_orders_initialized := false, last_price := none }
        50
        { cancel_ok := false, purchase_ok := true, place_ok := true,
          tpsl_triggered := true }).2 := by
  refine ⟨rfl, rfl, ?_⟩
  simp [on_ticker_update, initialize_grid_orders_once]

/-- Claim C6, amended: on a first tick (running, not yet initialized)
the handler records metrics, attempts to cancel prior open orders (a
cancellation failure is logged and swallowed - the result never depends
on it), re-aligns zones at the tick price, then runs the initial
purchase and grid placement. If the purchase fails, placement is not
attempted and running becomes false; if placement fails, running
becomes false; in both failure cases no TP/SL work happens that tick.
On success the handler marks initialized, stays running, and evaluates
take-profit/stop-loss on the same tick, publishing STOP_BOT (and
skipping the last-price update) when it triggers. -/
theorem c6_first_tick_gate (st : TickState) (p : ℚ) (o : TickOutcome)
    (hr : st.running = true) (hi : st.grid_orders_initialized = false) :
    (o.purchase_ok = false →
      on_ticker_update st p o =
        ({ running := false, grid_orders_initialized := false,
           last_price := some p },
         [StrategyAction.record_metrics p, StrategyAction.cancel_all_open_orders,
          StrategyAction.update_zones p,
          StrategyAction.perform_initial_purchase p])) ∧
    (o.purchase_ok = true → o.place_ok = false →
      on_ticker_update st p o =
        ({ running := false, grid_orders_initialized := false,
           last_price := some p },
         [StrategyAction.record_metrics p, StrategyAction.cancel_all_open_orders,
          StrategyAction.update_zones p, StrategyAction.perform_initial_purchase p,
          StrategyAction.initialize_grid_orders p])) ∧
    (o.purchase_ok = true → o.place_ok = true →
      on_ticker_update st p o =
        ({ running := true, grid_orders_initialized := true,
           last_price := if o.tpsl_triggered then st.last_price else some p },
         [StrategyAction.record_metrics p, StrategyAction.cancel_all_open_orders,
          StrategyAction.update_zones p, StrategyAction.perform_initial_purchase p,
          StrategyAction.initialize_grid_orders p, StrategyAction.evaluate_tp_sl p] ++
          (if o.tpsl_triggered then [StrategyAction.publish_stop_bot] else []))) := by
  refine ⟨fun h1 => ?_, fun h1 h2 => ?_, fun h1 h2 => ?_⟩
  · simp [on_ticker_update, initialize_grid_orders_once, hr, hi, h1]
  · simp [on_ticker_update, initialize_grid_orders_once, hr, hi, h1, h2]
  · cases htr : o.tpsl_triggered <;>
      simp [on_ticker_update, initialize_grid_orders_once, hr, hi, h1, h2, htr]

/-- Witness for C6 (amended): a successful, trigger-free first tick at
price 50. -/
theorem c6_first_tick_gate_witness :
    on_ticker_update
        { running := true, grid_orders_initialized := false, last_price := none }
        50
        { cancel_ok := true, purchase_ok := true, place_ok := true,
          tpsl_triggered := false } =
      ({ running := true, grid_orders_initialized := true, last_price := some 50 },
       [StrategyAction.record_metrics 50, StrategyAction.cancel_all_open_orders,
        StrategyAction.update_zones 50, StrategyAction.perform_initial_purchase 50,
        StrategyAction.initialize_grid_orders 50, StrategyAction.evaluate_tp_sl 50]) := by
  have h := (c6_first_tick_gate
    { running := true, grid_orders_initialized := false, last_price := none }
    50
    { cancel_ok := true, purchase_ok := true, place_ok := true,
      tpsl_triggered := false } rfl rfl).2.2 rfl rfl
  simpa using h

/-- Claim C7: `get_active_order_at_price` returns the first of the bot's
OPEN rows (in table order) whose stored price is within `tolerance` of
the query price; it returns none exactly when no OPEN row of the bot is
within tolerance; and on scenario S7 (OPEN row at 100.0001 for bot 7,
query 100.0003, tolerance 0.001) it returns that row. -/
theorem c7_find_open_at (db : List LedgerRow) (bot : ℤ) (p t : ℚ) :
    (∀ row, get_active_order_at_price db bot p t = some row →
      row.bot_id = bot ∧ row.status = "OPEN" ∧ |row.price - p| < t ∧
      ∃ pre post, openRowsOf db bot = pre ++ row :: post ∧
        ∀ r ∈ pre, ¬ |r.price - p| < t) ∧
    (get_active_order_at_price db bot p t = none ↔
      ∀ row ∈ db, row.bot_id = bot → row.status = "OPEN" →
        ¬ |row.price - p| < t) ∧
    get_active_order_at_price [s7Row] 7 (1000003 / 10000) (1 / 1000) = some s7Row := by
  refine ⟨?_, ?_, ?_⟩
  · intro row h
    rw [get_active_order_at_price, List.find?_eq_some] at h
    obtain ⟨hpred, pre, post, hsplit, hpre⟩ := h
    have hmem : row ∈ openRowsOf db bot := by
      rw [hsplit]
      exact List.mem_append_right _ (List.mem_cons_self _ _)
    have hmem' := List.mem_filter.mp hmem
    have hbot : row.bot_id = bot ∧ row.status = "OPEN" := by
      have := hmem'.2
      simpa using this
    refine ⟨hbot.1, hbot.2, by simpa using hpred, pre, post, hsplit, ?_⟩
    intro r hr
    have := hpre r hr
    simpa using this
  · rw [get_active_order_at_price, List.find?_eq_none]
    constructor
    · intro h row hrow hb hs
      have : row ∈ openRowsOf db bot := by
        rw [openRowsOf, List.mem_filter]
        exact ⟨hrow, by simp [hb, hs]⟩
      have := h row this
      simpa using this
    · intro h row hrow
      have hmem := List.mem_filter.mp hrow
      have hbs : row.bot_id = bot ∧ row.status = "OPEN" := by simpa using hmem.2
      have := h row hmem.1 hbs.1 hbs.2
      simpa using this
  · rw [get_active_order_at_price]
    simp [openRowsOf, s7Row]
    rw [abs_lt]
    constructor <;> norm_num

/-- Witness for C7 at scenario S7. -/
theorem c7_find_open_at_witness :
    get_active_order_at_price [s7Row] 7 (1000003 / 10000) (1 / 1000) = some s7Row :=
  (c7_find_open_at [s7Row] 7 (1000003 / 10000) (1 / 1000)).2.2

/-- Looking a price up after a keyed state update: the found level is the
original one, with its state overwritten when its price is the updated
key. -/
theorem findLevel_updateLevelState (levels : List GridLevel) (p : ℚ)
    (s : GridCycleState) (r : ℚ) :
    findLevel (updateLevelState levels p s) r =
      (findLevel levels r).map
        (fun gl => if gl.price = p then { gl with state := s } else gl) := by
  unfold findLevel updateLevelState
  rw [List.find?_map]
  have hpred : ((fun gl : GridLevel => decide (gl.price = r)) ∘ fun gl =>
      if gl.price = p then { gl with state := s } else gl) =
      (fun gl : GridLevel => decide (gl.price = r)) := by
    funext gl
    by_cases h : gl.price = p <;> simp [h]
  rw [hpred]

/-- `stateAtL` after a keyed state update. -/
theorem stateAtL_updateLevelState (levels : List GridLevel) (p : ℚ)
    (s : GridCycleState) (r : ℚ) :
    stateAtL (updateLevelState levels p s) r =
      (stateAtL levels r).map (fun st => if r = p then s else st) := by
  rw [stateAtL, findLevel_updateLevelState]
  cases h : findLevel levels r with
  | none => simp [stateAtL, h]
  | some gl =>
    have hp : gl.price = r := by
      have := List.find?_some h
      simpa using this
    by_cases hrp : r = p
    · subst hrp
      simp [stateAtL, h, hp]
    · have hgp : ¬ gl.price = p := by
        rw [hp]
        exact hrp
      simp [stateAtL, h, hgp, hrp]

/-- Counterexample to claim C2 as stated: completing a SELL at rung 100
while it is WAITING_FOR_BUY_FILL does leave rung 100 untouched, but it
is not free of other state transitions - the `paired_buy_level` update
sits outside the guard, so rung 95 flips from READY_TO_SELL to
READY_TO_BUY. -/
theorem c2_counterexample_paired_transition :
    stateAt c2Manager 100 = some GridCycleState.WAITING_FOR_BUY_FILL ∧
    stateAt c2Manager 95 = some GridCycleState.READY_TO_SELL ∧
    stateAt (complete_order c2Manager c2Level OrderSide.SELL) 100 =
      some GridCycleState.WAITING_FOR_BUY_FILL ∧
    stateAt (complete_order c2Manager c2Level OrderSide.SELL) 95 =
      some GridCycleState.READY_TO_BUY := by
  refine ⟨rfl, rfl, ?_, ?_⟩ <;>
    simp [complete_order, c2Manager, c2Level, stateAt, stateAtL, findLevel,
      updateLevelState]

/-- Claim C2, amended: for a SIMPLE_GRID manager, `complete_order(level,
SELL)` leaves the level's own state unchanged when it is
WAITING_FOR_BUY_FILL and sets it to READY_TO_BUY otherwise; in BOTH
cases, if the level has a `paired_buy_level`, that paired level's state
is set to READY_TO_BUY; the state of every other level is unchanged. -/
theorem c2_complete_order_sell (m : GridManager) (gl : GridLevel)
    (hs : m.strategy_type = StrategyType.SIMPLE_GRID)
    (hfind : findLevel m.grid_levels gl.price = some gl)
    (hnp : gl.paired_buy_level ≠ some gl.price) :
    stateAt (complete_order m gl OrderSide.SELL) gl.price =
      some (if gl.state = GridCycleState.WAITING_FOR_BUY_FILL then gl.state
            else GridCycleState.READY_TO_BUY) ∧
    (∀ q, gl.paired_buy_level = some q →
      stateAt (complete_order m gl OrderSide.SELL) q =
        (stateAt m q).map (fun _ => GridCycleState.READY_TO_BUY)) ∧
    (∀ r, r ≠ gl.price → gl.paired_buy_level ≠ some r →
      stateAt (complete_order m gl OrderSide.SELL) r = stateAt m r) := by
  have hself : stateAtL m.grid_levels gl.price = some gl.state := by
    rw [stateAtL, hfind]
    rfl
  have hlevels : (complete_order m gl OrderSide.SELL).grid_levels =
      (match gl.paired_buy_level with
       | some q =>
         updateLevelState
           (if gl.state = GridCycleState.WAITING_FOR_BUY_FILL then m.grid_levels
            else updateLevelState m.grid_levels gl.price GridCycleState.READY_TO_BUY)
           q GridCycleState.READY_TO_BUY
       | none =>
         if gl.state = GridCycleState.WAITING_FOR_BUY_FILL then m.grid_levels
         else updateLevelState m.grid_levels gl.price GridCycleState.READY_TO_BUY) := by
    simp [complete_order, hs]
  refine ⟨?_, ?_, ?_⟩
  · rw [stateAt, hlevels]
    cases hpb : gl.paired_buy_level with
    | none =>
      by_cases hw : gl.state = GridCycleState.WAITING_FOR_BUY_FILL
      · simp [hw, hself]
      · simp [hw, stateAtL_updateLevelState, hself]
    | some q =>
      have hq : ¬ gl.price = q := by
        intro h
        exact hnp (by rw [hpb, h])
      by_cases hw : gl.state = GridCycleState.WAITING_FOR_BUY_FILL
      · simp [hw, stateAtL_updateLevelState, hself, hq]
      · simp [hw, stateAtL_updateLevelState, hself, hq]
  · intro q hq
    have hqp : ¬ q = gl.price := by
      intro h
      exact hnp (by rw [hq, h])
    rw [stateAt, stateAt, hlevels, hq]
    by_cases hw : gl.state = GridCycleState.WAITING_FOR_BUY_FILL
    · simp [hw, stateAtL_updateLevelState]
    · simp [hw, stateAtL_updateLevelState, hqp]
  · intro r hr hpr
    rw [stateAt, stateAt, hlevels]
    cases hpb : gl.paired_buy_level with
    | none =>
      by_cases hw : gl.state = GridCycleState.WAITING_FOR_BUY_FILL
      · simp [hw]
      · simp [hw, stateAtL_updateLevelState, hr]
    | some q =>
      have hrq : ¬ r = q := by
        intro h
        exact hpr (by rw [hpb, h])
      by_cases hw : gl.state = GridCycleState.WAITING_FOR_BUY_FILL
      · simp [hw, stateAtL_updateLevelState, hrq]
      · simp [hw, stateAtL_updateLevelState, hrq, hr]

/-- Witness for C2 (amended): completing a SELL at a READY_TO_SELL rung
100 paired below with rung 95 sets both to READY_TO_BUY. -/
theorem c2_complete_order_sell_witness :
    stateAt (complete_order
        { strategy_type := StrategyType.SIMPLE_GRID,
          price_grids := [95, 100],
          central_price := 100,
          sorted_buy_grids := [95],
          sorted_sell_grids := [100],
          grid_levels :=
            [{ price := 95, state := GridCycleState.WAITING_FOR_BUY_FILL,
               paired_buy_level := none, paired_sell_level := some 100 },
             { price := 100, state := GridCycleState.READY_TO_SELL,
               paired_buy_level := some 95, paired_sell_level := none }] }
        { price := 100, state := GridCycleState.READY_TO_SELL,
          paired_buy_level := some 95, paired_sell_level := none }
        OrderSide.SELL) 100 = some GridCycleState.READY_TO_BUY := by
  have h := (c2_complete_order_sell
    { strategy_type := StrategyType.SIMPLE_GRID,
      price_grids := [95, 100],
      central_price := 100,
      sorted_buy_grids := [95],
      sorted_sell_grids := [100],
      grid_levels :=
        [{ price := 95, state := GridCycleState.WAITING_FOR_BUY_FILL,
           paired_buy_level := none, paired_sell_level := some 100 },
         { price := 100, state := GridCycleState.READY_TO_SELL,
           paired_buy_level := some 95, paired_sell_level := none }] }
    { price := 100, state := GridCycleState.READY_TO_SELL,
      paired_buy_level := some 95, paired_sell_level := none }
    rfl (by simp [findLevel]) (by simp)).1
  simpa using h

/-- A found level exists whenever some level carries the price. -/
theorem findLevel_isSome_of_exists (levels : List GridLevel) (q : ℚ)
    (h : ∃ l ∈ levels, l.price = q) : ∃ l, findLevel levels q = some l := by
  rw [← Option.isSome_iff_exists, findLevel, List.find?_isSome]
  obtain ⟨l, hl, hlp⟩ := h
  exact ⟨l, hl, by simpa using hlp⟩

/-- On a well-formed SIMPLE_GRID manager, `get_paired_sell_level` never
raises: every price it looks up is a member of `price_grids` and so has
a level in the dict. -/
theorem get_paired_sell_level_ne_none (m : GridManager) (gl : GridLevel)
    (hs : m.strategy_type = StrategyType.SIMPLE_GRID)
    (hw : WellFormedGrid m) :
    get_paired_sell_level m gl ≠ none := by
  have hmemlv : ∀ q ∈ m.price_grids, ∃ l ∈ m.grid_levels, l.price = q := by
    intro q hq
    rw [← hw.1] at hq
    obtain ⟨l, hl, hlp⟩ := List.mem_map.mp hq
    exact ⟨l, hl, hlp⟩
  rw [get_paired_sell_level, hs]
  cases hidx : (m.price_grids.insertionSort (· ≤ ·)).findIdx?
      (fun q => decide (q = gl.price)) with
  | none => simp [hidx]
  | some idx =>
    simp only [hidx]
    by_cases hlt : idx + 1 < (m.price_grids.insertionSort (· ≤ ·)).length
    · have hmem : (m.price_grids.insertionSort (· ≤ ·)).getD (idx + 1) 0 ∈
          m.price_grids := by
        rw [List.getD_eq_getElem _ _ hlt]
        exact (List.perm_insertionSort (· ≤ ·) m.price_grids).mem_iff.mp
          (List.getElem_mem hlt)
      obtain ⟨l, hl⟩ := findLevel_isSome_of_exists m.grid_levels _
        (hmemlv _ hmem)
      have hlt2 : idx + 1 < m.price_grids.length := by simpa using hlt
      rw [List.getD_eq_getElem _ _ hlt] at hl
      simp [hlt2, hl]
    · have hlt2 : ¬ idx + 1 < m.price_grids.length := by simpa using hlt
      simp [hlt2]

/-- Claim C3: for a well-formed SIMPLE_GRID manager,
`can_place_order(level, BUY)` returns true iff the level is
READY_TO_BUY and the paired sell level (the next rung above its price
in the sorted grid, when one exists) is not WAITING_FOR_SELL_FILL; in
particular on scenario S5 (rung 95 READY_TO_BUY, rung 100
WAITING_FOR_SELL_FILL) it returns false for rung 95. -/
theorem c3_can_place_order_buy (m : GridManager) (gl : GridLevel)
    (hs : m.strategy_type = StrategyType.SIMPLE_GRID)
    (hw : WellFormedGrid m) :
    (can_place_order m gl OrderSide.BUY = some true ↔
      (gl.state = GridCycleState.READY_TO_BUY ∧
       ∀ ps, get_paired_sell_level m gl = some (some ps) →
         ps.state ≠ GridCycleState.WAITING_FOR_SELL_FILL)) ∧
    can_place_order s5Manager s5Level OrderSide.BUY = some false := by
  constructor
  · by_cases hrtb : gl.state = GridCycleState.READY_TO_BUY
    · cases hg : get_paired_sell_level m gl with
      | none => exact absurd hg (get_paired_sell_level_ne_none m gl hs hw)
      | some op =>
        cases op with
        | none =>
          simp [can_place_order, hs, hrtb, hg]
        | some ps =>
          by_cases hps : ps.state = GridCycleState.WAITING_FOR_SELL_FILL
          · simp [can_place_order, hs, hrtb, hg, hps]
          · simp [can_place_order, hs, hrtb, hg, hps]
    · simp [can_place_order, hs, hrtb]
  · rfl

/-- Witness for C3 at scenario S5. -/
theorem c3_can_place_order_buy_witness :
    WellFormedGrid s5Manager ∧
    can_place_order s5Manager s5Level OrderSide.BUY = some false :=
  ⟨by decide, (c3_can_place_order_buy s5Manager s5Level rfl (by decide)).2⟩

/-- Effect of the `update_zones_based_on_price` loop on the level list:
under dict sanity (every looped price has a level, prices unique) the
fold succeeds and each level whose price occurs in the looped grid list
and whose state is idle is re-idealised by comparison with
`current_price`; every other level is untouched. -/
theorem foldl_zonesStep_eq (cp : ℚ) (grids : List ℚ) :
    ∀ levels : List GridLevel,
      (∀ q ∈ grids, ∃ gl ∈ levels, gl.price = q) →
      (levels.map GridLevel.price).Nodup →
      List.foldlM (zonesStep cp) levels grids =
        some (levels.map (fun gl =>
          if gl.price ∈ grids ∧ (gl.state = GridCycleState.READY_TO_BUY ∨
              gl.state = GridCycleState.READY_TO_SELL) then
            { gl with state := if gl.price < cp then GridCycleState.READY_TO_BUY
                               else GridCycleState.READY_TO_SELL }
          else gl)) := by
  induction grids with
  | nil =>
    intro levels h1 h2
    simp
  | cons q grids ih =>
    intro levels h1 h2
    obtain ⟨glf, hfind⟩ := findLevel_isSome_of_exists levels q
      (h1 q (List.mem_cons_self q grids))
    have hfind' : levels.find? (fun gl => decide (gl.price = q)) = some glf := hfind
    have hglfp : glf.price = q := by simpa using List.find?_some hfind'
    have hglfm : glf ∈ levels := List.mem_of_find?_eq_some hfind'
    rw [List.foldlM_cons]
    simp only [zonesStep, hfind]
    by_cases hidle : glf.state = GridCycleState.READY_TO_BUY ∨
        glf.state = GridCycleState.READY_TO_SELL
    · rw [if_pos hidle]
      have hbind : (some (updateLevelState levels q
            (if q < cp then GridCycleState.READY_TO_BUY
             else GridCycleState.READY_TO_SELL)) >>=
          fun b => List.foldlM (zonesStep cp) b grids) =
          List.foldlM (zonesStep cp)
            (updateLevelState levels q
              (if q < cp then GridCycleState.READY_TO_BUY
               else GridCycleState.READY_TO_SELL)) grids := rfl
      rw [hbind]
      have h1' : ∀ r ∈ grids, ∃ gl ∈ updateLevelState levels q
          (if q < cp then GridCycleState.READY_TO_BUY
           else GridCycleState.READY_TO_SELL), gl.price = r := by
        intro r hr
        obtain ⟨g, hg, hgp⟩ := h1 r (List.mem_cons_of_mem q hr)
        refine ⟨_, List.mem_map_of_mem _ hg, ?_⟩
        by_cases h : g.price = q <;> simpa [h] using hgp
      have hprice : (updateLevelState levels q
          (if q < cp then GridCycleState.READY_TO_BUY
           else GridCycleState.READY_TO_SELL)).map GridLevel.price =
          levels.map GridLevel.price := by
        rw [updateLevelState, List.map_map]
        apply List.map_congr_left
        intro a _
        by_cases h : a.price = q <;> simp [h]
      have h2' : ((updateLevelState levels q
          (if q < cp then GridCycleState.READY_TO_BUY
           else GridCycleState.READY_TO_SELL)).map GridLevel.price).Nodup := by
        rw [hprice]
        exact h2
      rw [ih _ h1' h2']
      congr 1
      rw [updateLevelState, List.map_map]
      apply List.map_congr_left
      intro gl hgl
      by_cases hp : gl.price = q
      · have hgf : gl = glf :=
          List.inj_on_of_nodup_map h2 hgl hglfm (by rw [hp, hglfp])
        have hidle2 : gl.state = GridCycleState.READY_TO_BUY ∨
            gl.state = GridCycleState.READY_TO_SELL := by
          rw [hgf]
          exact hidle
        by_cases hmem : gl.price ∈ grids
        · by_cases hcp : q < cp <;>
            simp [Function.comp, hp, hmem, hidle2, hcp]
        · by_cases hcp : q < cp <;>
            simp [Function.comp, hp, hmem, hidle2, hcp]
      · simp [Function.comp, hp, List.mem_cons]
    · rw [if_neg hidle]
      have hbind : (some levels >>=
          fun b => List.foldlM (zonesStep cp) b grids) =
          List.foldlM (zonesStep cp) levels grids := rfl
      rw [hbind]
      have h1t : ∀ r ∈ grids, ∃ gl ∈ levels, gl.price = r := by
        intro r hr
        exact h1 r (List.mem_cons_of_mem q hr)
      rw [ih levels h1t h2]
      congr 1
      apply List.map_congr_left
      intro gl hgl
      by_cases hp : gl.price = q
      · have hgf : gl = glf :=
          List.inj_on_of_nodup_map h2 hgl hglfm (by rw [hp, hglfp])
        have hnidle : ¬ (gl.state = GridCycleState.READY_TO_BUY ∨
            gl.state = GridCycleState.READY_TO_SELL) := by
          rw [hgf]
          exact hidle
        simp [hnidle]
      · simp [List.mem_cons, hp]

/-- Claim C1: on a well-formed manager, `update_zones_based_on_price`
is the identity under HEDGED_GRID; under SIMPLE_GRID it rebuilds the
buy partition as exactly the rungs with price < current_price and the
sell partition as all the others, sets every level whose state is
READY_TO_BUY or READY_TO_SELL to READY_TO_BUY when its price <
current_price and to READY_TO_SELL otherwise, and leaves the state of
every other level (in particular WAITING_FOR_BUY_FILL and
WAITING_FOR_SELL_FILL levels) untouched. -/
theorem c1_update_zones_based_on_price (m : GridManager) (cp : ℚ)
    (hw : WellFormedGrid m) :
    update_zones_based_on_price m cp =
      some (if m.strategy_type = StrategyType.SIMPLE_GRID then
        { m with
          sorted_buy_grids := m.price_grids.filter (fun q => decide (q < cp)),
          sorted_sell_grids := m.price_grids.filter (fun q => decide (¬ q < cp)),
          grid_levels := m.grid_levels.map (fun gl =>
            if gl.state = GridCycleState.READY_TO_BUY ∨
                gl.state = GridCycleState.READY_TO_SELL then
              { gl with state := if gl.price < cp then GridCycleState.READY_TO_BUY
                                 else GridCycleState.READY_TO_SELL }
            else gl) }
      else m) := by
  by_cases hs : m.strategy_type = StrategyType.SIMPLE_GRID
  · have h1 : ∀ q ∈ m.price_grids, ∃ gl ∈ m.grid_levels, gl.price = q := by
      intro q hq
      rw [← hw.1] at hq
      obtain ⟨l, hl, hlp⟩ := List.mem_map.mp hq
      exact ⟨l, hl, hlp⟩
    have h2 : (m.grid_levels.map GridLevel.price).Nodup := by
      rw [hw.1]
      exact hw.2
    have hfold := foldl_zonesStep_eq cp m.price_grids m.grid_levels h1 h2
    have hmap : m.grid_levels.map (fun gl =>
        if gl.price ∈ m.price_grids ∧ (gl.state = GridCycleState.READY_TO_BUY ∨
            gl.state = GridCycleState.READY_TO_SELL) then
          { gl with state := if gl.price < cp then GridCycleState.READY_TO_BUY
                             else GridCycleState.READY_TO_SELL }
        else gl) =
        m.grid_levels.map (fun gl =>
        if gl.state = GridCycleState.READY_TO_BUY ∨
            gl.state = GridCycleState.READY_TO_SELL then
          { gl with state := if gl.price < cp then GridCycleState.READY_TO_BUY
                             else GridCycleState.READY_TO_SELL }
        else gl) := by
      apply List.map_congr_left
      intro gl hgl
      have hmem : gl.price ∈ m.price_grids := by
        rw [← hw.1]
        exact List.mem_map_of_mem _ hgl
      simp [hmem]
    rw [update_zones_based_on_price]
    rw [if_neg (by simp [hs])]
    rw [hfold, hmap]
    rw [if_pos hs]
  · rw [update_zones_based_on_price, if_pos hs, if_neg hs]

/-- Witness for C1: re-aligning `zonesManager` to a first tick at 107
puts 90, 95, 100 and 105 in the buy partition and 110 in the sell
partition, flips the idle rungs below 107 to READY_TO_BUY, keeps 110
READY_TO_SELL, and leaves the busy rung 105 in WAITING_FOR_SELL_FILL. -/
theorem c1_update_zones_based_on_price_witness :
    WellFormedGrid zonesManager ∧
    update_zones_based_on_price zonesManager 107 =
      some { zonesManager with
        sorted_buy_grids := [90, 95, 100, 105],
        sorted_sell_grids := [110],
        grid_levels :=
          [{ price := 90, state := GridCycleState.READY_TO_BUY,
             paired_buy_level := none, paired_sell_level := none },
           { price := 95, state := GridCycleState.READY_TO_BUY,
             paired_buy_level := none, paired_sell_level := none },
           { price := 100, state := GridCycleState.READY_TO_BUY,
             paired_buy_level := none, paired_sell_level := none },
           { price := 105, state := GridCycleState.WAITING_FOR_SELL_FILL,
             paired_buy_level := none, paired_sell_level := none },
           { price := 110, state := GridCycleState.READY_TO_SELL,
             paired_buy_level := none, paired_sell_level := none }] } := by
  refine ⟨by decide, ?_⟩
  rw [c1_update_zones_based_on_price zonesManager 107 (by decide)]
  decide

/-- Indexing a mapped range list. -/
theorem getD_map_range (n i : ℕ) (f : ℕ → ℝ) (h : i < n) :
    ((List.range n).map f).getD i 0 = f i := by
  rw [List.getD_eq_getElem _ _ (by simpa using h)]
  simp

/-- Scenario S1, evaluated: an arithmetic grid from 100 to 200 with 4
requested rungs yields the 5 rungs 100, 125, 150, 175, 200 with central
price 150. -/
theorem calc_price_grids_s1 :
    calculate_price_grids_and_central_price 100 200 4 SpacingType.ARITHMETIC =
      ([100, 125, 150, 175, 200], 150) := by
  simp only [calculate_price_grids_and_central_price, linspace]
  norm_num
  rw [show (5 : ℕ) = 4 + 1 by norm_num, List.range_succ,
    show (4 : ℕ) = 3 + 1 by norm_num, List.range_succ,
    show (3 : ℕ) = 2 + 1 by norm_num, List.range_succ,
    show (2 : ℕ) = 1 + 1 by norm_num, List.range_succ,
    show (1 : ℕ) = 0 + 1 by norm_num, List.range_succ]
  norm_num

/-- Claim C5, amended: for an even requested count `k` with `k ≥ 2`,
grid generation produces `k + 1` rungs whose middle rung (index `k/2`)
carries the central price, for both spacings; under ARITHMETIC the
central price is `(top + bottom)/2` and rung `i` is
`bottom + i * (top - bottom)/k`; scenario S1 is the concrete instance.
(The original claim over every even `k` fails at `k = 0`, see the
counterexample.) -/
theorem c5_grid_parity (b t : ℝ) (k : ℕ) (sp : SpacingType)
    (hk : k % 2 = 0) (h2 : 2 ≤ k) :
    (calculate_price_grids_and_central_price b t k sp).1.length = k + 1 ∧
    (calculate_price_grids_and_central_price b t k sp).1.getD (k / 2) 0 =
      (calculate_price_grids_and_central_price b t k sp).2 ∧
    (sp = SpacingType.ARITHMETIC →
      (calculate_price_grids_and_central_price b t k sp).2 = (t + b) / 2 ∧
      ∀ i < k + 1,
        (calculate_price_grids_and_central_price b t k sp).1.getD i 0 =
          b + i * ((t - b) / k)) ∧
    calculate_price_grids_and_central_price 100 200 4 SpacingType.ARITHMETIC =
      ([100, 125, 150, 175, 200], 150) := by
  have hk0 : (k : ℝ) ≠ 0 := by
    have hpos : 0 < k := by omega
    exact ne_of_gt (by exact_mod_cast hpos)
  cases sp with
  | ARITHMETIC =>
    have hcalc : calculate_price_grids_and_central_price b t k
        SpacingType.ARITHMETIC =
        (linspace b t (k + 1), (t + b) / 2) := by
      simp [calculate_price_grids_and_central_price, hk]
    have hlin : linspace b t (k + 1) =
        (List.range (k + 1)).map
          (fun (i : ℕ) => b + (i : ℝ) * ((t - b) / (((k + 1 : ℕ) : ℝ) - 1))) := by
      rw [linspace, if_neg (by omega), if_neg (by omega)]
    have hden : (((k + 1 : ℕ) : ℝ) - 1) = (k : ℝ) := by
      push_cast
      ring
    refine ⟨?_, ?_, ?_, calc_price_grids_s1⟩
    · rw [hcalc]
      simp [hlin]
    · rw [hcalc]
      simp only [hlin, hden]
      have hidx : k / 2 < k + 1 := by omega
      rw [getD_map_range _ _ _ hidx]
      obtain ⟨m, rfl⟩ : ∃ m, k = 2 * m := ⟨k / 2, by omega⟩
      have hm : (2 * m) / 2 = m := by omega
      rw [hm]
      have hm0 : ((2 * m : ℕ) : ℝ) ≠ 0 := hk0
      push_cast at hm0 ⊢
      field_simp
      ring
    · intro _
      refine ⟨by rw [hcalc], ?_⟩
      intro i hi
      rw [hcalc]
      simp only [hlin, hden]
      rw [getD_map_range _ _ _ hi]
  | GEOMETRIC =>
    have hnle : ¬ (k + 1 ≤ 1) := by omega
    have hcalc : calculate_price_grids_and_central_price b t k
        SpacingType.GEOMETRIC =
        (let ratio := Real.rpow (t / b) (1 / (((k + 1 : ℕ) : ℝ) - 1))
         let grids := (List.range (k + 1)).map (fun (i : ℕ) => b * ratio ^ i)
         (grids, grids.getD (grids.length / 2) 0)) := by
      simp [calculate_price_grids_and_central_price, hk, hnle]
    refine ⟨?_, ?_, ?_, calc_price_grids_s1⟩
    · rw [hcalc]
      simp
    · rw [hcalc]
      simp only [List.length_map, List.length_range]
      have hidx : (k + 1) / 2 = k / 2 := by omega
      rw [hidx]
    · intro h
      exact absurd h (by simp)

/-- Counterexample to claim C5 as stated: `num_grids = 0` is even, and
the code then generates the single arithmetic rung `[bottom]` (so the
length clause `k + 1` still holds), but that rung at index `0 / 2 = 0`
is the bottom of the range, not the central price `(top + bottom)/2`:
for bottom 100, top 200 the grid is `[100]` while the central price is
150. -/
theorem c5_counterexample_zero_grids :
    (calculate_price_grids_and_central_price 100 200 0
      SpacingType.ARITHMETIC).1.length = 0 + 1 ∧
    (calculate_price_grids_and_central_price 100 200 0
        SpacingType.ARITHMETIC).1.getD (0 / 2) 0 ≠
      (calculate_price_grids_and_central_price 100 200 0
        SpacingType.ARITHMETIC).2 := by
  constructor
  · simp [calculate_price_grids_and_central_price, linspace]
  · simp [calculate_price_grids_and_central_price, linspace]
    norm_num

/-- Witness for C5 (amended) at scenario S1's configuration. -/
theorem c5_grid_parity_witness :
    (calculate_price_grids_and_central_price 100 200 4
      SpacingType.ARITHMETIC).1.length = 4 + 1 ∧
    (calculate_price_grids_and_central_price 100 200 4
        SpacingType.ARITHMETIC).1.getD (4 / 2) 0 =
      (calculate_price_grids_and_central_price 100 200 4
        SpacingType.ARITHMETIC).2 :=
  ⟨(c5_grid_parity 100 200 4 SpacingType.ARITHMETIC (by norm_num)
      (by norm_num)).1,
   (c5_grid_parity 100 200 4 SpacingType.ARITHMETIC (by norm_num)
      (by norm_num)).2.1⟩
